import Mathlib

/-!
# VA coded buffer abstraction (gstvaapicodedbuffer.c)

A shallow embedding of `gst-libs/gst/vaapi/gstvaapicodedbuffer.c`.

* A C pointer that may be `NULL` is an `Option` of the pointee; a function that
  writes through a pointer returns the updated pointee.
* The `NULL`-terminated chain of `VACodedBufferSegment` (linked by `next`) is a
  `List`; the `NULL` pointer is `[]`.
* Everything sent to the display (lock, unlock and the four driver calls) is
  appended to a trace, so that "issues one driver call" is a statement about
  the trace.
* What the driver answers is an input of each operation that may call it.
-/

namespace GstVaapi

/-! ## Data model -/

/-- A byte. -/
abbrev guint8 := Nat

/-- `VABufferID`, `VAContextID`: 32-bit unsigned handles. -/
abbrev VABufferID := Nat

/-- The sentinel `VA_INVALID_ID` (`0xffffffff`). -/
def VA_INVALID_ID : VABufferID := 0xffffffff

/-- `GstVaapiDisplay`: only its `VADisplay` handle is used here. -/
structure GstVaapiDisplay where
  va_display : Nat
deriving DecidableEq, Repr

/-- `GstVaapiContext`: its object id and the display it is bound to
(`GST_VAAPI_OBJECT_DISPLAY (context)`, which may be `NULL`). -/
structure GstVaapiContext where
  object_id : Nat
  display : Option GstVaapiDisplay
deriving DecidableEq, Repr

/-- `VACodedBufferSegment` without its `next` link (the link is the list
structure): `size` is the byte length, `buf` the memory behind the data
pointer, read at the offsets below `size`. -/
structure VACodedBufferSegment where
  size : Nat
  buf : Nat → guint8

/-- `GstVaapiCodedBuffer`: the object id and display of the parent object and
the `segment_list` pointer (`[]` is `NULL`: not mapped). -/
structure GstVaapiCodedBuffer where
  object_id : VABufferID
  display : GstVaapiDisplay
  segment_list : List VACodedBufferSegment

/-- What reaches the display: the lock and the driver calls, in order. -/
inductive DriverEvent where
  | display_lock (display : GstVaapiDisplay)
  | display_unlock (display : GstVaapiDisplay)
  | create_buffer (dpy : Nat) (ctx : Nat) (size : Nat)
  | destroy_buffer (dpy : Nat) (buf_id : VABufferID)
  | map_buffer (dpy : Nat) (buf_id : VABufferID)
  | unmap_buffer (dpy : Nat) (buf_id : VABufferID)
deriving DecidableEq, Repr

/-- A coded buffer together with the trace of display traffic so far. -/
structure State where
  buf : GstVaapiCodedBuffer
  trace : List DriverEvent

/-- `GstBuffer` destination: its bytes; the capacity is the length. -/
abbrev GstBuffer := List guint8

/-- The `size` bytes a segment holds. -/
def segment_data (segment : VACodedBufferSegment) : List guint8 :=
  (List.range segment.size).map segment.buf

/-- The bytes of a segment list, in list order. -/
def segments_data (segments : List VACodedBufferSegment) : List guint8 :=
  (segments.map segment_data).flatten

/-- The sum of the sizes of a segment list. -/
def segments_size (segments : List VACodedBufferSegment) : Nat :=
  (segments.map (fun s => s.size)).sum

/-- A value of type `gssize` (64-bit two's complement) from an integer. -/
def wrap_gssize (x : Int) : Int :=
  (x + 2 ^ 63) % 2 ^ 64 - 2 ^ 63

/-- Is the event a driver unmap call? -/
def DriverEvent.is_unmap : DriverEvent → Bool
  | .unmap_buffer _ _ => true
  | _ => false

/-! ## The static helpers -/

/-- `coded_buffer_create`: one locked `vaapi_create_buffer` call; `created` is
what the driver answers (`none`: failure, `some buf_id`: success). -/
def coded_buffer_create (created : Option VABufferID) (st : State) (buf_size : Nat)
    (context : GstVaapiContext) : Bool × State :=
  let display := st.buf.display
  let trace := st.trace ++ [DriverEvent.display_lock display,
    DriverEvent.create_buffer display.va_display context.object_id buf_size,
    DriverEvent.display_unlock display]
  match created with
  | none => (false, { st with trace := trace })
  | some buf_id => (true, { buf := { st.buf with object_id := buf_id }, trace := trace })

/-- `coded_buffer_destroy`. -/
def coded_buffer_destroy (st : State) : State :=
  let display := st.buf.display
  let buf_id := st.buf.object_id
  if buf_id ≠ VA_INVALID_ID then
    { buf := { st.buf with object_id := VA_INVALID_ID },
      trace := st.trace ++ [DriverEvent.display_lock display,
        DriverEvent.destroy_buffer display.va_display buf_id,
        DriverEvent.display_unlock display] }
  else st

/-- `coded_buffer_map`; `mapped` is what `vaapi_map_buffer` answers if it is
called (`[]`: `NULL`). -/
def coded_buffer_map (mapped : List VACodedBufferSegment) (st : State) : Bool × State :=
  if !st.buf.segment_list.isEmpty then (true, st)
  else
    let buf := { st.buf with segment_list := mapped }
    let trace := st.trace ++ [DriverEvent.display_lock st.buf.display,
      DriverEvent.map_buffer st.buf.display.va_display st.buf.object_id,
      DriverEvent.display_unlock st.buf.display]
    (!buf.segment_list.isEmpty, { buf := buf, trace := trace })

/-- Modelled from the spec: `vaapi_unmap_buffer` (gstvaapiutils.c) is not among
the sources; per the spec the unmap call "clears `mappedSegments`", so the
pointer it is handed is set to `NULL`. -/
def vaapi_unmap_buffer (_dpy : Nat) (_buf_id : VABufferID)
    (_pbuf : List VACodedBufferSegment) : List VACodedBufferSegment :=
  []

/-- `coded_buffer_unmap`. -/
def coded_buffer_unmap (st : State) : State :=
  if st.buf.segment_list.isEmpty then st
  else
    let segment_list :=
      vaapi_unmap_buffer st.buf.display.va_display st.buf.object_id st.buf.segment_list
    { buf := { st.buf with segment_list := segment_list },
      trace := st.trace ++ [DriverEvent.display_lock st.buf.display,
        DriverEvent.unmap_buffer st.buf.display.va_display st.buf.object_id,
        DriverEvent.display_unlock st.buf.display] }

/-- `gst_vaapi_coded_buffer_finalize` is `coded_buffer_destroy`. -/
def gst_vaapi_coded_buffer_finalize (st : State) : State :=
  coded_buffer_destroy st

/-- Modelled from the spec: `gst_vaapi_object_new` (gstvaapiobject.c) is not
among the sources; a new object holds the display, the sentinel handle
("sentinel invalid value when unallocated") and no mapping; `allocated` tells
whether the allocation succeeds. -/
def gst_vaapi_object_new (allocated : Bool) (display : GstVaapiDisplay) :
    Option GstVaapiCodedBuffer :=
  if allocated then
    some { object_id := VA_INVALID_ID, display := display, segment_list := [] }
  else none

/-- Modelled from the spec: `gst_vaapi_object_unref` (gstvaapiobject.c) is not
among the sources; dropping the only reference runs the finalizer ("the
partially constructed object is released"). -/
def gst_vaapi_object_unref (st : State) : State :=
  gst_vaapi_coded_buffer_finalize st

/-! ## The public entry points -/

/-- `gst_vaapi_coded_buffer_new`: the buffer returned (`none`: `NULL`) and the
trace. -/
def gst_vaapi_coded_buffer_new (allocated : Bool) (created : Option VABufferID)
    (context : Option GstVaapiContext) (buf_size : Nat) (trace : List DriverEvent) :
    Option GstVaapiCodedBuffer × List DriverEvent :=
  match context with
  | none => (none, trace)
  | some ctx =>
    if ¬ (buf_size > 0) then (none, trace)
    else
      match ctx.display with
      | none => (none, trace)
      | some display =>
        match gst_vaapi_object_new allocated display with
        | none => (none, trace)
        | some buf =>
          match coded_buffer_create created { buf := buf, trace := trace } buf_size ctx with
          | (true, st) => (some st.buf, st.trace)
          | (false, st) => (none, (gst_vaapi_object_unref st).trace)

/-- `gst_vaapi_coded_buffer_unmap`. -/
def gst_vaapi_coded_buffer_unmap (buf : Option GstVaapiCodedBuffer)
    (trace : List DriverEvent) : Option GstVaapiCodedBuffer × List DriverEvent :=
  match buf with
  | none => (none, trace)
  | some b =>
    let st := coded_buffer_unmap { buf := b, trace := trace }
    (some st.buf, st.trace)

/-- The loop of `gst_vaapi_coded_buffer_get_size`: `size += segment->size` in
`gssize` arithmetic over the chain. -/
def get_size_loop : List VACodedBufferSegment → Int → Int
  | [], size => size
  | segment :: next, size => get_size_loop next (wrap_gssize (size + segment.size))

/-- What `gst_vaapi_coded_buffer_get_size` leaves. -/
structure SizeResult where
  ret : Int
  buf : Option GstVaapiCodedBuffer
  trace : List DriverEvent

/-- `gst_vaapi_coded_buffer_get_size`. -/
def gst_vaapi_coded_buffer_get_size (mapped : List VACodedBufferSegment)
    (buf : Option GstVaapiCodedBuffer) (trace : List DriverEvent) : SizeResult :=
  match buf with
  | none => { ret := -1, buf := none, trace := trace }
  | some b =>
    match coded_buffer_map mapped { buf := b, trace := trace } with
    | (false, st) => { ret := -1, buf := some st.buf, trace := st.trace }
    | (true, st) =>
      let size := get_size_loop st.buf.segment_list 0
      let st1 := coded_buffer_unmap st
      { ret := size, buf := some st1.buf, trace := st1.trace }

/-- `gst_buffer_fill` of GStreamer, bounds-checked: it writes
`min (size, capacity - offset)` bytes of `src` at `offset` and returns that
count together with the buffer. -/
def gst_buffer_fill (dest : GstBuffer) (offset : Nat) (src : Nat → guint8) (size : Nat) :
    Nat × GstBuffer :=
  let n := min size (dest.length - offset)
  (n, dest.take offset ++ (List.range n).map src ++ dest.drop (offset + n))

/-- The loop of `gst_vaapi_coded_buffer_copy_into`: the destination and the
value of `segment` when the loop is left (`[]`: `NULL`, the end was reached).
The offset never exceeds the capacity of the destination, so `goffset`
arithmetic does not wrap. -/
def copy_into_loop : List VACodedBufferSegment → GstBuffer → Nat →
    GstBuffer × List VACodedBufferSegment
  | [], dest, _ => (dest, [])
  | segment :: next, dest, offset =>
    let (size, dest1) := gst_buffer_fill dest offset segment.buf segment.size
    if size ≠ segment.size then (dest1, segment :: next)
    else copy_into_loop next dest1 (offset + segment.size)

/-- What `gst_vaapi_coded_buffer_copy_into` leaves. -/
structure CopyResult where
  ret : Bool
  dest : Option GstBuffer
  src : Option GstVaapiCodedBuffer
  trace : List DriverEvent

/-- `gst_vaapi_coded_buffer_copy_into`. -/
def gst_vaapi_coded_buffer_copy_into (mapped : List VACodedBufferSegment)
    (dest : Option GstBuffer) (src : Option GstVaapiCodedBuffer)
    (trace : List DriverEvent) : CopyResult :=
  match src with
  | none => { ret := false, dest := dest, src := none, trace := trace }
  | some b =>
    match dest with
    | none => { ret := false, dest := none, src := some b, trace := trace }
    | some d =>
      match coded_buffer_map mapped { buf := b, trace := trace } with
      | (false, st) => { ret := false, dest := some d, src := some st.buf, trace := st.trace }
      | (true, st) =>
        let (d1, segment) := copy_into_loop st.buf.segment_list d 0
        let st1 := coded_buffer_unmap st
        { ret := segment.isEmpty, dest := some d1, src := some st1.buf, trace := st1.trace }

/-! ## Display traffic of the single calls -/

/-- The display traffic of one map call on a buffer. -/
def map_events (buf : GstVaapiCodedBuffer) : List DriverEvent :=
  [DriverEvent.display_lock buf.display,
    DriverEvent.map_buffer buf.display.va_display buf.object_id,
    DriverEvent.display_unlock buf.display]

/-- The display traffic of one unmap call on a buffer. -/
def unmap_events (buf : GstVaapiCodedBuffer) : List DriverEvent :=
  [DriverEvent.display_lock buf.display,
    DriverEvent.unmap_buffer buf.display.va_display buf.object_id,
    DriverEvent.display_unlock buf.display]

/-- The display traffic of one release call on a buffer. -/
def destroy_events (buf : GstVaapiCodedBuffer) : List DriverEvent :=
  [DriverEvent.display_lock buf.display,
    DriverEvent.destroy_buffer buf.display.va_display buf.object_id,
    DriverEvent.display_unlock buf.display]

/-- The display traffic of one create call for a buffer of `buf_size` bytes
bound to a context. -/
def create_events (display : GstVaapiDisplay) (context : GstVaapiContext) (buf_size : Nat) :
    List DriverEvent :=
  [DriverEvent.display_lock display,
    DriverEvent.create_buffer display.va_display context.object_id buf_size,
    DriverEvent.display_unlock display]

/-! ## Scenarios -/

/-- An unmapped coded buffer with handle 5 on display 1. -/
def example_buffer : GstVaapiCodedBuffer :=
  { object_id := 5, display := { va_display := 1 }, segment_list := [] }

/-- A segment of 1000 bytes, each of value 1. -/
def segment_1000 : VACodedBufferSegment := { size := 1000, buf := fun _ => 1 }

/-- A segment of 500 bytes, each of value 2. -/
def segment_500 : VACodedBufferSegment := { size := 500, buf := fun _ => 2 }

/-- A segment of 3 bytes: 10, 11, 12. -/
def segment_a : VACodedBufferSegment := { size := 3, buf := fun i => 10 + i }

/-- A segment of 2 bytes: 20, 21. -/
def segment_b : VACodedBufferSegment := { size := 2, buf := fun i => 20 + i }

/-! ## Lemmas on the data model -/

theorem segments_size_nil : segments_size [] = 0 := rfl

theorem segments_size_cons (s : VACodedBufferSegment) (l : List VACodedBufferSegment) :
    segments_size (s :: l) = s.size + segments_size l := by
  simp [segments_size]

theorem segments_size_append (l₁ l₂ : List VACodedBufferSegment) :
    segments_size (l₁ ++ l₂) = segments_size l₁ + segments_size l₂ := by
  simp [segments_size]

theorem segments_data_nil : segments_data [] = [] := rfl

theorem segments_data_cons (s : VACodedBufferSegment) (l : List VACodedBufferSegment) :
    segments_data (s :: l) = segment_data s ++ segments_data l := by
  simp [segments_data]

theorem segment_data_length (s : VACodedBufferSegment) : (segment_data s).length = s.size := by
  simp [segment_data]

theorem segments_data_length (l : List VACodedBufferSegment) :
    (segments_data l).length = segments_size l := by
  induction l with
  | nil => rfl
  | cons s l ih => simp [segments_data_cons, segments_size_cons, segment_data_length, ih]

theorem segment_data_take (s : VACodedBufferSegment) (n : Nat) (h : n ≤ s.size) :
    (segment_data s).take n = (List.range n).map s.buf := by
  unfold segment_data
  rw [← List.map_take, List.take_range, Nat.min_eq_left h]

theorem wrap_gssize_of_fits (x : Int) (h0 : 0 ≤ x) (h1 : x < 2 ^ 63) : wrap_gssize x = x := by
  unfold wrap_gssize
  rw [Int.emod_eq_of_lt (by omega) (by omega)]
  omega

/-! ## Lemmas on the loops -/

theorem get_size_loop_fits (segments : List VACodedBufferSegment) (size : Nat)
    (h : size + segments_size segments < 2 ^ 63) :
    get_size_loop segments size = ((size + segments_size segments : Nat) : Int) := by
  induction segments generalizing size with
  | nil => simp [get_size_loop, segments_size_nil]
  | cons s l ih =>
    rw [segments_size_cons] at h
    have hw : wrap_gssize ((size : Int) + (s.size : Int)) = ((size + s.size : Nat) : Int) := by
      rw [wrap_gssize_of_fits _ (by omega) (by push_cast; omega)]
      push_cast; rfl
    rw [get_size_loop, hw, ih (size + s.size) (by omega), segments_size_cons, Nat.add_assoc]

theorem gst_buffer_fill_full (dest : GstBuffer) (offset : Nat) (s : VACodedBufferSegment)
    (h : offset + s.size ≤ dest.length) :
    gst_buffer_fill dest offset s.buf s.size
      = (s.size, dest.take offset ++ segment_data s ++ dest.drop (offset + s.size)) := by
  have hn : min s.size (dest.length - offset) = s.size := Nat.min_eq_left (by omega)
  simp only [gst_buffer_fill, hn, segment_data]

theorem gst_buffer_fill_short (dest : GstBuffer) (offset : Nat) (s : VACodedBufferSegment)
    (h0 : offset ≤ dest.length) (h : dest.length < offset + s.size) :
    gst_buffer_fill dest offset s.buf s.size
      = (dest.length - offset,
          dest.take offset ++ (segment_data s).take (dest.length - offset)) := by
  have hn : min s.size (dest.length - offset) = dest.length - offset :=
    Nat.min_eq_right (by omega)
  have hd : offset + (dest.length - offset) = dest.length := by omega
  simp only [gst_buffer_fill, hn, hd, List.drop_length, List.append_nil]
  rw [segment_data_take s _ (by omega)]

theorem fill_full_length (dest : GstBuffer) (offset : Nat) (s : VACodedBufferSegment)
    (h : offset + s.size ≤ dest.length) :
    (dest.take offset ++ segment_data s ++ dest.drop (offset + s.size)).length = dest.length := by
  simp [segment_data_length]; omega

theorem fill_full_take (dest : GstBuffer) (offset : Nat) (s : VACodedBufferSegment)
    (h : offset + s.size ≤ dest.length) :
    (dest.take offset ++ segment_data s ++ dest.drop (offset + s.size)).take (offset + s.size)
      = dest.take offset ++ segment_data s := by
  apply List.take_left'
  simp [segment_data_length]; omega

theorem fill_full_drop (dest : GstBuffer) (offset : Nat) (s : VACodedBufferSegment) (k : Nat)
    (h : offset + s.size ≤ dest.length) :
    (dest.take offset ++ segment_data s ++ dest.drop (offset + s.size)).drop (offset + s.size + k)
      = dest.drop (offset + s.size + k) := by
  have hl : (dest.take offset ++ segment_data s).length = offset + s.size := by
    simp [segment_data_length]; omega
  rw [List.drop_append_eq_append_drop, hl]
  have : (dest.take offset ++ segment_data s).drop (offset + s.size + k) = [] := by
    apply List.drop_eq_nil_of_le; omega
  rw [this, List.nil_append, List.drop_drop]
  congr 1; omega

/-- When everything fits, the loop writes all the data at the offset, keeps
the rest and reaches the end of the chain. -/
theorem copy_into_loop_full (segments : List VACodedBufferSegment) (dest : GstBuffer)
    (offset : Nat) (h : offset + segments_size segments ≤ dest.length) :
    copy_into_loop segments dest offset
      = (dest.take offset ++ segments_data segments
          ++ dest.drop (offset + segments_size segments), []) := by
  induction segments generalizing dest offset with
  | nil => simp [copy_into_loop, segments_data_nil, segments_size_nil]
  | cons s l ih =>
    rw [segments_size_cons] at h
    have hs : offset + s.size ≤ dest.length := by omega
    rw [copy_into_loop, gst_buffer_fill_full dest offset s hs]
    simp only [ne_eq, not_true_eq_false, ↓reduceIte]
    rw [ih _ _ (by rw [fill_full_length dest offset s hs]; omega),
      fill_full_take dest offset s hs, fill_full_drop dest offset s _ hs,
      segments_data_cons, segments_size_cons]
    simp [List.append_assoc, Nat.add_assoc]

/-- When the data does not fit, the loop stops at the first segment `s` that
overruns the capacity: the segments before it are written in full, then the
leading part of `s` that fits, and `segment` is left pointing at `s`. -/
theorem copy_into_loop_short (segments : List VACodedBufferSegment) (dest : GstBuffer)
    (offset : Nat) (h0 : offset ≤ dest.length)
    (h : dest.length < offset + segments_size segments) :
    ∃ pre s post, segments = pre ++ s :: post ∧
      offset + segments_size pre ≤ dest.length ∧
      dest.length < offset + segments_size pre + s.size ∧
      copy_into_loop segments dest offset
        = (dest.take offset ++ segments_data pre
            ++ (segment_data s).take (dest.length - (offset + segments_size pre)), s :: post) := by
  induction segments generalizing dest offset with
  | nil => simp [segments_size_nil] at h; omega
  | cons s l ih =>
    rw [segments_size_cons] at h
    by_cases hs : offset + s.size ≤ dest.length
    · have hlen := fill_full_length dest offset s hs
      obtain ⟨pre, t, post, hl, h1, h2, h3⟩ :=
        ih (dest.take offset ++ segment_data s ++ dest.drop (offset + s.size)) (offset + s.size)
          (by omega) (by omega)
      refine ⟨s :: pre, t, post, by rw [hl]; rfl, ?_, ?_, ?_⟩
      · rw [segments_size_cons]; omega
      · rw [segments_size_cons]; omega
      · rw [copy_into_loop, gst_buffer_fill_full dest offset s hs]
        simp only [ne_eq, not_true_eq_false, ↓reduceIte]
        rw [h3, fill_full_take dest offset s hs, hlen, segments_data_cons, segments_size_cons]
        simp [List.append_assoc, Nat.add_assoc]
    · refine ⟨[], s, l, rfl, by simpa [segments_size_nil] using h0,
        by simp [segments_size_nil]; omega, ?_⟩
      rw [copy_into_loop, gst_buffer_fill_short dest offset s h0 (by omega)]
      have hne : dest.length - offset ≠ s.size := by omega
      simp [hne, segments_data_nil, segments_size_nil]

theorem segments_data_append (l₁ l₂ : List VACodedBufferSegment) :
    segments_data (l₁ ++ l₂) = segments_data l₁ ++ segments_data l₂ := by
  simp [segments_data]

/-- When the data does not fit, the loop leaves the destination filled with
the leading bytes of the data and stops before the end of the chain. -/
theorem copy_into_loop_truncated (segments : List VACodedBufferSegment) (dest : GstBuffer)
    (h : dest.length < segments_size segments) :
    (copy_into_loop segments dest 0).1 = (segments_data segments).take dest.length ∧
      (copy_into_loop segments dest 0).2 ≠ [] := by
  obtain ⟨pre, s, post, hl, h1, h2, h3⟩ :=
    copy_into_loop_short segments dest 0 (Nat.zero_le _) (by omega)
  rw [h3]
  refine ⟨?_, by simp⟩
  simp only [Nat.zero_add] at h1 h2 ⊢
  have hpre : (segments_data pre).length = segments_size pre := segments_data_length pre
  have hk : dest.length = (segments_data pre).length + (dest.length - segments_size pre) := by
    omega
  rw [hl, segments_data_append, segments_data_cons, List.take_zero, List.nil_append]
  conv_rhs => rw [hk, List.take_append, List.take_append_eq_append_take]
  have hz : dest.length - segments_size pre - (segment_data s).length = 0 := by
    rw [segment_data_length]; omega
  rw [hz, List.take_zero, List.append_nil]

/-! ## Unfolding the mapping bracket -/

theorem coded_buffer_map_unmapped (mapped : List VACodedBufferSegment) (st : State)
    (h : st.buf.segment_list = []) :
    coded_buffer_map mapped st
      = (!mapped.isEmpty,
          { buf := { st.buf with segment_list := mapped }, trace := st.trace ++ map_events st.buf })
    := by
  simp [coded_buffer_map, h, map_events]

theorem coded_buffer_unmap_segment_list (st : State) :
    (coded_buffer_unmap st).buf.segment_list = [] := by
  unfold coded_buffer_unmap
  cases hs : st.buf.segment_list with
  | nil => simp [hs]
  | cons a l => simp [vaapi_unmap_buffer]

theorem coded_buffer_unmap_of_mapped (st : State) (h : st.buf.segment_list ≠ []) :
    coded_buffer_unmap st
      = { buf := { st.buf with segment_list := [] }, trace := st.trace ++ unmap_events st.buf } := by
  unfold coded_buffer_unmap
  cases hs : st.buf.segment_list with
  | nil => exact absurd hs h
  | cons a l => simp [vaapi_unmap_buffer, unmap_events]

/-- On an unmapped buffer for which the driver maps a non-empty segment list,
the size query is the loop over that list between one map and one unmap. -/
theorem get_size_unfold (mapped : List VACodedBufferSegment) (buf : GstVaapiCodedBuffer)
    (trace : List DriverEvent) (h : buf.segment_list = []) (hne : mapped ≠ []) :
    gst_vaapi_coded_buffer_get_size mapped (some buf) trace
      = { ret := get_size_loop mapped 0, buf := some { buf with segment_list := [] },
          trace := trace ++ map_events buf ++ unmap_events buf } := by
  cases mapped with
  | nil => exact absurd rfl hne
  | cons a l =>
    simp [gst_vaapi_coded_buffer_get_size, coded_buffer_map_unmapped _ ⟨buf, trace⟩ h,
      coded_buffer_unmap_of_mapped, map_events, unmap_events]

/-- On an unmapped buffer for which the driver maps a non-empty segment list,
the copy is the loop over that list between one map and one unmap. -/
theorem copy_into_unfold (mapped : List VACodedBufferSegment) (dest : GstBuffer)
    (buf : GstVaapiCodedBuffer) (trace : List DriverEvent) (h : buf.segment_list = [])
    (hne : mapped ≠ []) :
    gst_vaapi_coded_buffer_copy_into mapped (some dest) (some buf) trace
      = { ret := (copy_into_loop mapped dest 0).2.isEmpty,
          dest := some (copy_into_loop mapped dest 0).1,
          src := some { buf with segment_list := [] },
          trace := trace ++ map_events buf ++ unmap_events buf } := by
  cases mapped with
  | nil => exact absurd rfl hne
  | cons a l =>
    simp [gst_vaapi_coded_buffer_copy_into, coded_buffer_map_unmapped _ ⟨buf, trace⟩ h,
      coded_buffer_unmap_of_mapped, map_events, unmap_events]

/-- When the driver maps nothing (`NULL`) on an unmapped buffer, the size query
fails after the one map call. -/
theorem get_size_map_failed (buf : GstVaapiCodedBuffer) (trace : List DriverEvent)
    (h : buf.segment_list = []) :
    gst_vaapi_coded_buffer_get_size [] (some buf) trace
      = { ret := -1, buf := some { buf with segment_list := [] },
          trace := trace ++ map_events buf } := by
  simp [gst_vaapi_coded_buffer_get_size, coded_buffer_map_unmapped _ ⟨buf, trace⟩ h]

/-- When the driver maps nothing (`NULL`) on an unmapped buffer, the copy fails
after the one map call. -/
theorem copy_into_map_failed (dest : GstBuffer) (buf : GstVaapiCodedBuffer)
    (trace : List DriverEvent) (h : buf.segment_list = []) :
    gst_vaapi_coded_buffer_copy_into [] (some dest) (some buf) trace
      = { ret := false, dest := some dest, src := some { buf with segment_list := [] },
          trace := trace ++ map_events buf } := by
  simp [gst_vaapi_coded_buffer_copy_into, coded_buffer_map_unmapped _ ⟨buf, trace⟩ h]

theorem gst_vaapi_coded_buffer_new_unmapped (allocated : Bool) (created : Option VABufferID)
    (context : Option GstVaapiContext) (buf_size : Nat) (trace trace1 : List DriverEvent)
    (buf : GstVaapiCodedBuffer)
    (h : gst_vaapi_coded_buffer_new allocated created context buf_size trace = (some buf, trace1)) :
    buf.segment_list = [] := by
  unfold gst_vaapi_coded_buffer_new at h
  cases context with
  | none => simp at h
  | some ctx =>
    cases hd : ctx.display with
    | none => simp [hd] at h
    | some display =>
      cases allocated <;> cases created <;>
        simp [hd, gst_vaapi_object_new, coded_buffer_create] at h
      all_goals split at h <;> simp at h
      rw [← h.1]

theorem coded_buffer_map_false (mapped : List VACodedBufferSegment) (st st1 : State)
    (h : coded_buffer_map mapped st = (false, st1)) : st1.buf.segment_list = [] := by
  unfold coded_buffer_map at h
  cases hs : st.buf.segment_list with
  | nil =>
    cases mapped with
    | nil => simp [hs] at h; rw [← h]
    | cons a l => simp [hs] at h
  | cons a l => simp [hs] at h

theorem map_events_no_unmap (buf : GstVaapiCodedBuffer) :
    (map_events buf).filter DriverEvent.is_unmap = [] := by
  simp [map_events, DriverEvent.is_unmap]

set_option maxRecDepth 100000

/-! ## Size query -/

/-- C1: when the driver maps a non-empty segment list whose sizes sum to a
value that fits in `gssize`, `gst_vaapi_coded_buffer_get_size` returns exactly
that sum: on every unmapped buffer, and so on every buffer that
`gst_vaapi_coded_buffer_new` returned, whatever `buf_size` it was created
with. -/
theorem get_size_eq_sum_of_segment_sizes (mapped : List VACodedBufferSegment)
    (hne : mapped ≠ []) (hfit : segments_size mapped < 2 ^ 63) :
    (∀ (buf : GstVaapiCodedBuffer) (trace : List DriverEvent), buf.segment_list = [] →
      (gst_vaapi_coded_buffer_get_size mapped (some buf) trace).ret
        = ((segments_size mapped : Nat) : Int)) ∧
    (∀ (allocated : Bool) (created : Option VABufferID) (context : Option GstVaapiContext)
      (buf_size : Nat) (trace trace1 : List DriverEvent) (buf : GstVaapiCodedBuffer),
      gst_vaapi_coded_buffer_new allocated created context buf_size trace = (some buf, trace1) →
      (gst_vaapi_coded_buffer_get_size mapped (some buf) trace1).ret
        = ((segments_size mapped : Nat) : Int)) := by
  have key : ∀ (buf : GstVaapiCodedBuffer) (trace : List DriverEvent), buf.segment_list = [] →
      (gst_vaapi_coded_buffer_get_size mapped (some buf) trace).ret
        = ((segments_size mapped : Nat) : Int) := by
    intro buf trace h
    rw [get_size_unfold mapped buf trace h hne]
    have := get_size_loop_fits mapped 0 (by simpa using hfit)
    simpa using this
  exact ⟨key, fun allocated created context buf_size trace trace1 buf h =>
    key buf trace1 (gst_vaapi_coded_buffer_new_unmapped _ _ _ _ _ _ _ h)⟩

/-- Witness of C1: segments of 1000 and 500 bytes give 1500, also on a buffer
created with `buf_size` 4096. -/
theorem get_size_eq_sum_of_segment_sizes_witness :
    (gst_vaapi_coded_buffer_get_size [segment_1000, segment_500] (some example_buffer) []).ret
        = 1500 ∧
      (gst_vaapi_coded_buffer_get_size [segment_1000, segment_500]
        (some { object_id := 7, display := { va_display := 1 }, segment_list := [] })
        (gst_vaapi_coded_buffer_new true (some 7)
          (some { object_id := 3, display := some { va_display := 1 } }) 4096 []).2).ret
        = 1500 := by
  have h := get_size_eq_sum_of_segment_sizes [segment_1000, segment_500] (by simp)
    (by simp [segments_size, segment_1000, segment_500])
  refine ⟨?_, ?_⟩
  · have h1 := h.1 example_buffer [] rfl
    simpa [segments_size, segment_1000, segment_500] using h1
  · have h2 := h.2 true (some 7) (some { object_id := 3, display := some { va_display := 1 } })
      4096 [] _ _ rfl
    simpa [segments_size, segment_1000, segment_500] using h2

/-! ## Copy -/

/-- C2: when the driver maps a non-empty segment list and the capacity of the
destination is at least the total of the segment sizes,
`gst_vaapi_coded_buffer_copy_into` returns `TRUE`; the destination then
starts with the data of the segments in list order and every byte beyond the
total is the one it held before. -/
theorem copy_into_complete (mapped : List VACodedBufferSegment) (dest : GstBuffer)
    (buf : GstVaapiCodedBuffer) (trace : List DriverEvent)
    (hunmapped : buf.segment_list = []) (hne : mapped ≠ [])
    (hcap : segments_size mapped ≤ dest.length) :
    (gst_vaapi_coded_buffer_copy_into mapped (some dest) (some buf) trace).ret = true ∧
      (gst_vaapi_coded_buffer_copy_into mapped (some dest) (some buf) trace).dest
        = some (segments_data mapped ++ dest.drop (segments_size mapped)) := by
  rw [copy_into_unfold mapped dest buf trace hunmapped hne,
    copy_into_loop_full mapped dest 0 (by omega)]
  simp

/-- Witness of C2: segments 10 11 12 and 20 21 into seven bytes. -/
theorem copy_into_complete_witness :
    (gst_vaapi_coded_buffer_copy_into [segment_a, segment_b] (some [0, 1, 2, 3, 4, 5, 6])
        (some example_buffer) []).ret = true ∧
      (gst_vaapi_coded_buffer_copy_into [segment_a, segment_b] (some [0, 1, 2, 3, 4, 5, 6])
        (some example_buffer) []).dest = some [10, 11, 12, 20, 21, 5, 6] :=
  copy_into_complete [segment_a, segment_b] [0, 1, 2, 3, 4, 5, 6] example_buffer [] rfl
    (by simp) (by decide)

/-- C3, as the code has it: when the capacity of the destination is less than
the total of the segment sizes, `gst_vaapi_coded_buffer_copy_into` returns
`FALSE`; the destination holds the segments transferred in full before the
short segment, followed by the leading bytes of the short segment that fit
the remaining capacity, and no byte of a later segment. -/
theorem copy_into_short (mapped : List VACodedBufferSegment) (dest : GstBuffer)
    (buf : GstVaapiCodedBuffer) (trace : List DriverEvent)
    (hunmapped : buf.segment_list = []) (hcap : dest.length < segments_size mapped) :
    ∃ pre s post, mapped = pre ++ s :: post ∧
      segments_size pre ≤ dest.length ∧ dest.length < segments_size pre + s.size ∧
      (gst_vaapi_coded_buffer_copy_into mapped (some dest) (some buf) trace).ret = false ∧
      (gst_vaapi_coded_buffer_copy_into mapped (some dest) (some buf) trace).dest
        = some (segments_data pre ++ (segment_data s).take (dest.length - segments_size pre)) := by
  have hne : mapped ≠ [] := by
    rintro rfl
    simp [segments_size_nil] at hcap
  obtain ⟨pre, s, post, hl, h1, h2, h3⟩ :=
    copy_into_loop_short mapped dest 0 (Nat.zero_le _) (by omega)
  refine ⟨pre, s, post, hl, by omega, by omega, ?_⟩
  rw [copy_into_unfold mapped dest buf trace hunmapped hne, h3]
  simp

/-- Witness of C3 as amended: segments of 1000 and 500 bytes into a
destination of 800 bytes. -/
theorem copy_into_short_witness :
    ∃ pre s post, [segment_1000, segment_500] = pre ++ s :: post ∧
      segments_size pre ≤ (List.replicate 800 0).length ∧
      (List.replicate 800 0).length < segments_size pre + s.size ∧
      (gst_vaapi_coded_buffer_copy_into [segment_1000, segment_500]
        (some (List.replicate 800 0)) (some example_buffer) []).ret = false ∧
      (gst_vaapi_coded_buffer_copy_into [segment_1000, segment_500]
        (some (List.replicate 800 0)) (some example_buffer) []).dest
        = some (segments_data pre
            ++ (segment_data s).take ((List.replicate 800 0).length - segments_size pre)) :=
  copy_into_short [segment_1000, segment_500] (List.replicate 800 0) example_buffer [] rfl
    (by simp [segments_size, segment_1000, segment_500])

/-- C3 as stated fails on its own example: with segments of 1000 and 500
bytes and a destination of 800 bytes the short segment is the first one (the
loop is left with `segment` still at the head of the chain, nothing was
transferred in full), and yet the 800 bytes of the destination have all been
overwritten with the leading bytes of that segment. -/
theorem copy_into_short_counterexample :
    (List.replicate 800 0).length < segments_size [segment_1000, segment_500] ∧
      (gst_vaapi_coded_buffer_copy_into [segment_1000, segment_500]
        (some (List.replicate 800 0)) (some example_buffer) []).ret = false ∧
      (copy_into_loop [segment_1000, segment_500] (List.replicate 800 0) 0).2.length = 2 ∧
      (gst_vaapi_coded_buffer_copy_into [segment_1000, segment_500]
        (some (List.replicate 800 0)) (some example_buffer) []).dest
        = some (List.replicate 800 1) ∧
      (gst_vaapi_coded_buffer_copy_into [segment_1000, segment_500]
        (some (List.replicate 800 0)) (some example_buffer) []).dest
        ≠ some (List.replicate 800 0) := by
  decide

/-- C10: for a non-empty segment list mapped by the driver,
`gst_vaapi_coded_buffer_copy_into` returns `TRUE` if and only if the total of
the segment sizes is at most the capacity of the destination; when the total
exceeds the capacity it returns `FALSE` and the whole destination holds the
leading bytes of the concatenated segment data, the truncated start of the
segment that does not fit included. -/
theorem copy_into_true_iff_fits (mapped : List VACodedBufferSegment) (dest : GstBuffer)
    (buf : GstVaapiCodedBuffer) (trace : List DriverEvent)
    (hunmapped : buf.segment_list = []) (hne : mapped ≠ []) :
    ((gst_vaapi_coded_buffer_copy_into mapped (some dest) (some buf) trace).ret = true ↔
        segments_size mapped ≤ dest.length) ∧
      (dest.length < segments_size mapped →
        (gst_vaapi_coded_buffer_copy_into mapped (some dest) (some buf) trace).ret = false ∧
        (gst_vaapi_coded_buffer_copy_into mapped (some dest) (some buf) trace).dest
          = some ((segments_data mapped).take dest.length)) := by
  rw [copy_into_unfold mapped dest buf trace hunmapped hne]
  by_cases hcap : segments_size mapped ≤ dest.length
  · rw [copy_into_loop_full mapped dest 0 (by omega)]
    refine ⟨by simp [hcap], fun h => absurd hcap (by omega)⟩
  · obtain ⟨hd, hs⟩ := copy_into_loop_truncated mapped dest (by omega)
    have hfalse : (copy_into_loop mapped dest 0).2.isEmpty = false := by
      cases hr : (copy_into_loop mapped dest 0).2 with
      | nil => exact absurd hr hs
      | cons a l => rfl
    refine ⟨by simp [hfalse, hcap], fun _ => ⟨by simp [hfalse], by simp [hd]⟩⟩

/-- Witness of C10: segments 10 11 12 and 20 21 into four bytes. -/
theorem copy_into_true_iff_fits_witness :
    (gst_vaapi_coded_buffer_copy_into [segment_a, segment_b] (some [0, 0, 0, 0])
        (some example_buffer) []).ret = false ∧
      (gst_vaapi_coded_buffer_copy_into [segment_a, segment_b] (some [0, 0, 0, 0])
        (some example_buffer) []).dest = some [10, 11, 12, 20] :=
  (copy_into_true_iff_fits [segment_a, segment_b] [0, 0, 0, 0] example_buffer [] rfl
    (by simp)).2 (by decide)

/-- C5: after `gst_vaapi_coded_buffer_get_size` and after
`gst_vaapi_coded_buffer_copy_into`, called on a buffer and a destination,
whatever the driver answers to the map call (a segment list or `NULL`),
whatever the destination can hold (success or short copy) and whether or not
the buffer was mapped at entry, the `segment_list` of the buffer is empty. -/
theorem unmapped_on_exit (mapped : List VACodedBufferSegment) (dest : GstBuffer)
    (buf : GstVaapiCodedBuffer) (trace : List DriverEvent) :
    (∃ b, (gst_vaapi_coded_buffer_get_size mapped (some buf) trace).buf = some b ∧
        b.segment_list = []) ∧
      (∃ b, (gst_vaapi_coded_buffer_copy_into mapped (some dest) (some buf) trace).src = some b ∧
        b.segment_list = []) := by
  obtain ⟨r, st, hm⟩ : ∃ r st, coded_buffer_map mapped { buf := buf, trace := trace } = (r, st) :=
    ⟨_, _, rfl⟩
  simp only [gst_vaapi_coded_buffer_get_size, gst_vaapi_coded_buffer_copy_into, hm]
  cases r with
  | false =>
    have h0 := coded_buffer_map_false _ _ _ hm
    exact ⟨⟨st.buf, rfl, h0⟩, ⟨st.buf, rfl, h0⟩⟩
  | true =>
    have h1 := coded_buffer_unmap_segment_list st
    exact ⟨⟨_, rfl, h1⟩, ⟨_, rfl, h1⟩⟩

/-- C7: when the map call of the driver fails (`NULL`) on an unmapped buffer,
`gst_vaapi_coded_buffer_get_size` returns -1 and
`gst_vaapi_coded_buffer_copy_into` returns `FALSE`; the destination is
unchanged, the buffer keeps no segment list, and the display has seen the one
locked map call and no unmap call. -/
theorem map_failure_aborts (dest : GstBuffer) (buf : GstVaapiCodedBuffer)
    (trace : List DriverEvent) (hunmapped : buf.segment_list = []) :
    (gst_vaapi_coded_buffer_get_size [] (some buf) trace).ret = -1 ∧
      (gst_vaapi_coded_buffer_copy_into [] (some dest) (some buf) trace).ret = false ∧
      (gst_vaapi_coded_buffer_copy_into [] (some dest) (some buf) trace).dest = some dest ∧
      (gst_vaapi_coded_buffer_get_size [] (some buf) trace).buf = some buf ∧
      (gst_vaapi_coded_buffer_copy_into [] (some dest) (some buf) trace).src = some buf ∧
      (gst_vaapi_coded_buffer_get_size [] (some buf) trace).trace = trace ++ map_events buf ∧
      (gst_vaapi_coded_buffer_copy_into [] (some dest) (some buf) trace).trace
        = trace ++ map_events buf ∧
      (gst_vaapi_coded_buffer_get_size [] (some buf) trace).trace.filter DriverEvent.is_unmap
        = trace.filter DriverEvent.is_unmap ∧
      (gst_vaapi_coded_buffer_copy_into [] (some dest) (some buf) trace).trace.filter
        DriverEvent.is_unmap = trace.filter DriverEvent.is_unmap := by
  have hb : ({ buf with segment_list := [] } : GstVaapiCodedBuffer) = buf := by
    cases buf; simp_all
  rw [copy_into_map_failed dest buf trace hunmapped, get_size_map_failed buf trace hunmapped, hb]
  simp [map_events_no_unmap]

/-- Witness of C7: a failed map on the example buffer, destination of two
bytes. -/
theorem map_failure_aborts_witness :
    (gst_vaapi_coded_buffer_get_size [] (some example_buffer) []).ret = -1 ∧
      (gst_vaapi_coded_buffer_copy_into [] (some [8, 9]) (some example_buffer) []).ret = false ∧
      (gst_vaapi_coded_buffer_copy_into [] (some [8, 9]) (some example_buffer) []).dest
        = some [8, 9] ∧
      (gst_vaapi_coded_buffer_get_size [] (some example_buffer) []).trace
        = [DriverEvent.display_lock { va_display := 1 }, DriverEvent.map_buffer 1 5,
            DriverEvent.display_unlock { va_display := 1 }] := by
  have h := map_failure_aborts [8, 9] example_buffer [] rfl
  exact ⟨h.1, h.2.1, h.2.2.1, h.2.2.2.2.2.1⟩

/-! ## Creation and destruction -/

/-- C8: `gst_vaapi_coded_buffer_new` returns `NULL` when the context is absent,
when `buf_size` is 0, when the display of the context is absent and when the
create call of the driver fails; in the first three cases the trace is
untouched (no lock taken, no driver call). When the checks pass, the object is
allocated and the driver call succeeds, it returns a buffer whose handle is
the id the driver produced, after exactly one locked create call. -/
theorem new_null_or_driver_id (allocated : Bool) (created : Option VABufferID)
    (context : Option GstVaapiContext) (buf_size : Nat) (trace : List DriverEvent) :
    (context = none →
        gst_vaapi_coded_buffer_new allocated created context buf_size trace = (none, trace)) ∧
      (buf_size = 0 →
        gst_vaapi_coded_buffer_new allocated created context buf_size trace = (none, trace)) ∧
      (∀ ctx, context = some ctx → ctx.display = none →
        gst_vaapi_coded_buffer_new allocated created context buf_size trace = (none, trace)) ∧
      (created = none →
        (gst_vaapi_coded_buffer_new allocated created context buf_size trace).1 = none) ∧
      (∀ ctx display buf_id, context = some ctx → 0 < buf_size → ctx.display = some display →
        allocated = true → created = some buf_id →
        ∃ buf, gst_vaapi_coded_buffer_new allocated created context buf_size trace
            = (some buf, trace ++ create_events display ctx buf_size) ∧
          buf.object_id = buf_id) := by
  refine ⟨?_, ?_, ?_, ?_, ?_⟩
  · rintro rfl; rfl
  · rintro rfl
    cases context <;> simp [gst_vaapi_coded_buffer_new]
  · rintro ctx rfl hd
    simp only [gst_vaapi_coded_buffer_new, hd]
    split <;> rfl
  · rintro rfl
    cases context with
    | none => rfl
    | some ctx =>
      simp only [gst_vaapi_coded_buffer_new]
      split
      · rfl
      · cases hd : ctx.display with
        | none => rfl
        | some display => cases allocated <;> simp [gst_vaapi_object_new, coded_buffer_create]
  · rintro ctx display buf_id rfl hpos hd rfl rfl
    have hnot : ¬ ¬ buf_size > 0 := by omega
    simp [gst_vaapi_coded_buffer_new, hnot, hd, gst_vaapi_object_new, coded_buffer_create,
      create_events]

/-- Witness of C8: a context with id 3 on display 1, `buf_size` 4096, the
driver produces the id 7. -/
theorem new_null_or_driver_id_witness :
    ∃ buf, gst_vaapi_coded_buffer_new true (some 7)
        (some { object_id := 3, display := some { va_display := 1 } }) 4096 []
        = (some buf, [] ++ create_events { va_display := 1 }
            { object_id := 3, display := some { va_display := 1 } } 4096) ∧
      buf.object_id = 7 :=
  (new_null_or_driver_id true (some 7)
    (some { object_id := 3, display := some { va_display := 1 } }) 4096 []).2.2.2.2
    { object_id := 3, display := some { va_display := 1 } } { va_display := 1 } 7
    rfl (by decide) rfl rfl rfl

/-- C9: on a buffer with a valid handle `coded_buffer_destroy` sends exactly
one locked release call for that handle and sets the handle to
`VA_INVALID_ID`, touching nothing else; any number of further
`coded_buffer_destroy` calls change neither the buffer nor the trace (no lock,
no driver call). So a buffer that `gst_vaapi_coded_buffer_new` returned holds
the sentinel after one destroy. -/
theorem destroy_idempotent (st : State) (hvalid : st.buf.object_id ≠ VA_INVALID_ID) :
    (coded_buffer_destroy st).trace = st.trace ++ destroy_events st.buf ∧
      (coded_buffer_destroy st).buf = { st.buf with object_id := VA_INVALID_ID } ∧
      (∀ n : Nat, coded_buffer_destroy^[n] (coded_buffer_destroy st) = coded_buffer_destroy st) ∧
      (∀ (allocated : Bool) (created : Option VABufferID) (context : Option GstVaapiContext)
        (buf_size : Nat) (trace trace1 : List DriverEvent) (buf : GstVaapiCodedBuffer),
        gst_vaapi_coded_buffer_new allocated created context buf_size trace = (some buf, trace1) →
        (coded_buffer_destroy { buf := buf, trace := trace1 }).buf.object_id = VA_INVALID_ID) := by
  have hstep : ∀ s : State, (coded_buffer_destroy s).buf.object_id = VA_INVALID_ID := by
    intro s
    unfold coded_buffer_destroy
    by_cases h : s.buf.object_id = VA_INVALID_ID <;> simp [h]
  have hfix : ∀ s : State, s.buf.object_id = VA_INVALID_ID → coded_buffer_destroy s = s := by
    intro s h
    simp [coded_buffer_destroy, h]
  refine ⟨by simp [coded_buffer_destroy, hvalid, destroy_events],
    by simp [coded_buffer_destroy, hvalid], ?_, fun _ _ _ _ _ _ _ _ => hstep _⟩
  intro n
  induction n with
  | zero => rfl
  | succ k ih => rw [Function.iterate_succ_apply, hfix _ (hstep st), ih]

/-- Witness of C9: the example buffer, whose handle is 5. -/
theorem destroy_idempotent_witness :
    (coded_buffer_destroy { buf := example_buffer, trace := [] }).trace
        = [DriverEvent.display_lock { va_display := 1 }, DriverEvent.destroy_buffer 1 5,
            DriverEvent.display_unlock { va_display := 1 }] ∧
      (coded_buffer_destroy { buf := example_buffer, trace := [] }).buf.object_id
        = VA_INVALID_ID ∧
      coded_buffer_destroy^[2] (coded_buffer_destroy { buf := example_buffer, trace := [] })
        = coded_buffer_destroy { buf := example_buffer, trace := [] } := by
  have h := destroy_idempotent { buf := example_buffer, trace := [] } (by decide)
  exact ⟨h.1, congrArg GstVaapiCodedBuffer.object_id h.2.1, h.2.2.1 2⟩

end GstVaapi
